import Mathlib

/-!
Shallow embedding of the two provisioning scripts of
`tarikwaleed/ubuntu_focal_22_04_vps_provision`:

* `provision_ubuntu_20_04.py`  — class `UbuntuDockerInstaller`
* `provision_multiple_distros.py` — class `DockerInstaller`

External effects (shell commands run through `run_command`, the
`is_docker_active` / `is_docker_compose_installed` probes, spinner and
sleep delays, directory creation and working-directory changes) are
recorded as an explicit event trace.  Environment inputs (command exit
codes, probe results, user answers, detected OS version, euid, home
directory) are parameters of the embedded functions.
-/

/-- One observable external effect of a script run. -/
inductive Ev
  /-- a shell command executed through `run_command` (logged). -/
  | cmd (s : String)
  /-- one `is_docker_active()` probe (`systemctl is-active docker`, captured, not logged). -/
  | probe
  /-- one `is_docker_compose_installed()` probe (`which docker-compose`, captured, not logged). -/
  | composeQ
  /-- `show_spinner(sec)` — busy display lasting `sec` seconds. -/
  | spin (sec : Nat)
  /-- `time.sleep(n)` inside the readiness-wait loop. -/
  | sleepSec (n : Nat)
  /-- `os.makedirs(p, exist_ok=True)`. -/
  | mkdirs (p : String)
  /-- `os.chdir` to the (absolute) directory `p`. -/
  | chdir (p : String)
  /-- `subprocess.getoutput(c)` inside `get_system_info` (not logged). -/
  | getoutput (c : String)
deriving DecidableEq, Repr

/-- Result of `run_command`: the pair `(process.returncode, process.stdout)`. -/
structure CmdResult where
  returncode : Int
  stdout : Option String
deriving DecidableEq, Repr

/-- Process-wide mutable state threaded through a run: the event trace so
far, the content of the shared log file `docker-script-install.log`
(`none` while the file does not exist yet), and the working directory. -/
structure St where
  trace : List Ev
  log : Option (List String)
  cwd : String
deriving DecidableEq, Repr

/-- `run_command(command)` of BOTH scripts (`provision_ubuntu_20_04.py`
lines 10–21 and `provision_multiple_distros.py` lines 10–20; the two
differ only by a terminal `print`).  Opens the log in append mode
(creating it if absent), runs the command with `stdout=f,
stderr=subprocess.STDOUT`, and returns `(process.returncode,
process.stdout)`.  Because stdout is redirected into the file,
`process.stdout` is `None`.  The appended chunk (the command's combined
output, opaque to the model) is tagged by the command string; `ec` gives
each command's exit code. -/
def run_command (ec : String → Int) (command : String) (log : Option (List String)) :
    CmdResult × Option (List String) :=
  (⟨ec command, none⟩, some (log.getD [] ++ [command]))

/-- Run one command through `run_command`, recording the event and the log update. -/
def St.runc (ec : String → Int) (c : String) (s : St) : CmdResult × St :=
  let (r, log) := run_command ec c s.log
  (r, ⟨s.trace ++ [Ev.cmd c], log, s.cwd⟩)

/-- `show_spinner(n)`. -/
def St.spin (n : Nat) (s : St) : St :=
  { s with trace := s.trace ++ [Ev.spin n] }

/-- One `is_docker_active()` probe. -/
def St.probe (s : St) : St :=
  { s with trace := s.trace ++ [Ev.probe] }

/-- One `is_docker_compose_installed()` probe. -/
def St.composeQ (s : St) : St :=
  { s with trace := s.trace ++ [Ev.composeQ] }

/-- `os.makedirs(p, exist_ok=True)`. -/
def St.mkd (p : String) (s : St) : St :=
  { s with trace := s.trace ++ [Ev.mkdirs p] }

/-- `os.chdir(p)` with an absolute path `p`. -/
def St.cd (p : String) (s : St) : St :=
  ⟨s.trace ++ [Ev.chdir p], s.log, p⟩

/-- `os.chdir(p)` with a path `p` relative to the current directory. -/
def St.cdRel (p : String) (s : St) : St :=
  s.cd (s.cwd ++ "/" ++ p)

/-- The shell commands of a trace, in order. -/
def cmdsOf : List Ev → List String
  | [] => []
  | Ev.cmd s :: t => s :: cmdsOf t
  | _ :: t => cmdsOf t

/-- Number of `is_docker_active()` probes in a trace. -/
def probeCount : List Ev → Nat
  | [] => 0
  | Ev.probe :: t => probeCount t + 1
  | _ :: t => probeCount t

/-- Total seconds slept by `time.sleep` in a trace. -/
def sleepTotal : List Ev → Nat
  | [] => 0
  | Ev.sleepSec n :: t => n + sleepTotal t
  | _ :: t => sleepTotal t

/-- `xs` occurs inside `ys` as a (not necessarily contiguous) subsequence. -/
def isSubseq : List String → List String → Bool
  | [], _ => true
  | _ :: _, [] => false
  | a :: as, b :: bs => if a = b then isSubseq as bs else isSubseq (a :: as) bs

/-- The compose-descriptor fetch of the proxy-manager companion. -/
def npmFetchCmd : String :=
  "curl https://gitlab.com/bmcgonag/docker_installs/-/raw/main/docker_compose.nginx_proxy_manager.yml -o docker-compose.yml"

/-- The compose bring-up used by the companion installers. -/
def composeUpCmd : String := "docker-compose up -d"

/-- Portainer-CE container start. -/
def portainerCeRun : String :=
  "docker run -d -p 8000:8000 -p 9000:9000 --name=portainer --restart=always -v /var/run/docker.sock:/var/run/docker.sock -v portainer_data:/data portainer/portainer-ce"

/-- Portainer-Agent container start. -/
def portainerAgentRun : String :=
  "docker run -d -p 9001:9001 --name portainer_agent --restart=always -v /var/run/docker.sock:/var/run/docker.sock -v /var/lib/docker/volumes:/var/lib/docker/volumes portainer/agent"

/-- The compose-descriptor fetch of the Navidrome companion. -/
def navidromeFetchCmd : String :=
  "curl https://gitlab.com/bmcgonag/docker_installs/-/raw/main/docker_compose_navidrome.yml -o docker-compose.yml"

/-- Commands that only companion installs issue. -/
def companionCmds : List String :=
  [npmFetchCmd, composeUpCmd, "docker volume create portainer_data",
   portainerCeRun, portainerAgentRun, navidromeFetchCmd]

/-- An event witnessing companion-install activity: creating or entering a
companion working directory, or one of the companion commands. -/
def isCompanionEv : Ev → Bool
  | Ev.mkdirs _ => true
  | Ev.chdir _ => true
  | Ev.cmd c => companionCmds.contains c
  | _ => false

/-- Fold `run_command` over a list of commands (repeated calls in one run). -/
def execAll (ec : String → Int) : List String → Option (List String) → Option (List String)
  | [], log => log
  | c :: cs, log => execAll ec cs (run_command ec c log).2

namespace UbuntuDockerInstaller

/-- `UbuntuDockerInstaller.install_docker_packages` (lines 70–95).
`active i` is the result of the `(i+1)`-th `is_docker_active()` call of
the run, `k` the index of the next probe; `composeInstalled` the result
of the single `is_docker_compose_installed()` call.  Returns the state
and the next probe index. -/
def install_docker_packages (ec : String → Int) (active : Nat → Bool)
    (composeInstalled : Bool) (k : Nat) (s : St) : St × Nat :=
  let (_, s) := s.runc ec "apt update && apt upgrade -y"
  let s := s.spin 3
  let (_, s) := s.runc ec "apt install curl wget git -y"
  let s := s.probe
  let s :=
    if ¬ active k then
      let (_, s) := s.runc ec "curl -fsSL https://get.docker.com | sh"
      let (_, s) := s.runc ec "usermod -aG docker $USER"
      let (_, s) := s.runc ec "systemctl start docker"
      let (_, s) := s.runc ec "systemctl enable docker"
      s
    else s
  let s := s.composeQ
  let s :=
    if ¬ composeInstalled then (s.runc ec "apt install docker-compose -y").2
    else s
  (s, k + 1)

/-- The `while not is_docker_active() and retries < 30: time.sleep(1);
retries += 1` loop of `main` (lines 144–147).  Each evaluation of the
loop condition first issues one probe (the left operand of `and`).
`fuel` is structural fuel; `main` supplies `31`, enough for the worst
case `retries = 0 … 30`, so the `0` branch is never taken there.
Returns the state, the next probe index and the final `retries`. -/
def wait_loop (active : Nat → Bool) : Nat → Nat → Nat → St → St × Nat × Nat
  | 0, k, retries, s => (s, k, retries)
  | fuel + 1, k, retries, s =>
    if ¬ active k ∧ retries < 30 then
      wait_loop active fuel (k + 1) (retries + 1)
        { s with trace := s.trace ++ [Ev.probe, Ev.sleepSec 1] }
    else ({ s with trace := s.trace ++ [Ev.probe] }, k + 1, retries)

/-- The full readiness wait of `main` (lines 144–151): the poll loop
followed by the final `if not is_docker_active()` re-probe that decides
between proceeding and `sys.exit(1)`.  Returns the state, the next probe
index, and whether the wait concluded that Docker is active. -/
def readiness_wait (active : Nat → Bool) (k : Nat) (s : St) : St × Nat × Bool :=
  let r := wait_loop active 31 k 0 s
  (r.1.probe, r.2.1 + 1, active r.2.1)

/-- `UbuntuDockerInstaller.install_nginx_proxy_manager` (lines 97–114):
make and enter `docker/nginx-proxy-manager`, fetch the descriptor, bring
it up, then `os.chdir(os.path.expanduser("~"))`. -/
def install_nginx_proxy_manager (ec : String → Int) (home : String) (s : St) : St :=
  let s := s.mkd "docker/nginx-proxy-manager"
  let s := s.cdRel "docker/nginx-proxy-manager"
  let (_, s) := s.runc ec npmFetchCmd
  let (_, s) := s.runc ec composeUpCmd
  s.cd home

/-- `UbuntuDockerInstaller.install_portainer` (lines 116–125): two
commands, no directory change. -/
def install_portainer (ec : String → Int) (s : St) : St :=
  let (_, s) := s.runc ec "docker volume create portainer_data"
  let (_, s) := s.runc ec portainerCeRun
  s

/-- Outcome of a run of the Ubuntu script: final state and exit code
(`sys.exit` argument, `0` for falling off the end of `main`). -/
structure RunOut where
  st : St
  exit : Nat
deriving DecidableEq, Repr

/-- `UbuntuDockerInstaller.main` (lines 127–166).  `ubuntu_version` is
the result of `check_ubuntu_version()` (`none` on a non-Ubuntu host —
`sys.exit(1)` before any command runs and before the log file is ever
opened).  Otherwise: `install_docker_packages`, the readiness wait, and
on success the two companion installs. -/
def main (ec : String → Int) (active : Nat → Bool) (composeInstalled : Bool)
    (ubuntu_version : Option String) (home : String) (s : St) : RunOut :=
  match ubuntu_version with
  | none => ⟨s, 1⟩
  | some _ =>
    let (s, k) := install_docker_packages ec active composeInstalled 0 s
    let (s, _, ok) := readiness_wait active k s
    if ¬ ok then ⟨s, 1⟩
    else
      let s := install_nginx_proxy_manager ec home s
      let s := install_portainer ec s
      ⟨s, 0⟩

/-- The `__main__` guard (lines 169–175): `os.geteuid() != 0` exits `1`
before anything else; otherwise `main` runs. -/
def script_entry (euid : Nat) (ec : String → Int) (active : Nat → Bool)
    (composeInstalled : Bool) (ubuntu_version : Option String)
    (home : String) (s : St) : RunOut :=
  if euid ≠ 0 then ⟨s, 1⟩
  else main ec active composeInstalled ubuntu_version home s

end UbuntuDockerInstaller

namespace DockerInstaller

/-- The user's interactive answers in `prompt_installations`
(lines 73–105): the five y/n questions and, when the Portainer question
was answered yes, the 1–3 menu choice accepted by the validation loop
(the loop re-prompts until the input is one of `1`, `2`, `3`). -/
structure Answers where
  docker : Bool
  compose : Bool
  npm : Bool
  navidrome : Bool
  portainer : Bool
  portainerChoice : Nat
deriving DecidableEq, Repr

/-- The installer's flag attributes after `prompt_installations`
(initialised `False`/`None` in `__init__`, lines 64–71). -/
structure Flags where
  install_docker : Bool
  install_docker_compose : Bool
  install_npm : Bool
  install_navidrome : Bool
  install_portainer : Bool
  portainer_choice : Option Nat
deriving DecidableEq, Repr

/-- `DockerInstaller.prompt_installations` (lines 73–105).  The Docker
question is only asked when `is_docker_active()` is false (otherwise the
flag keeps its initial `False`); likewise for the compose question; the
Portainer menu runs only when the Portainer answer was yes. -/
def prompt_installations (dockerActive composeInstalled : Bool) (a : Answers)
    (s : St) : Flags × St :=
  let s := s.probe
  let d := if ¬ dockerActive then a.docker else false
  let s := s.composeQ
  let c := if ¬ composeInstalled then a.compose else false
  let pc := if a.portainer then some a.portainerChoice else none
  (⟨d, c, a.npm, a.navidrome, a.portainer, pc⟩, s)

/-- `DockerInstaller.install_debian_ubuntu` (lines 107–123). -/
def install_debian_ubuntu (ec : String → Int) (f : Flags) (s : St) : St :=
  let (_, s) := s.runc ec "apt update && apt upgrade -y"
  let s := s.spin 3
  let (_, s) := s.runc ec "apt install curl wget git -y"
  let s :=
    if f.install_docker then
      let (_, s) := s.runc ec "curl -fsSL https://get.docker.com | sh"
      (s.runc ec "usermod -aG docker $USER").2
    else s
  if f.install_docker_compose then (s.runc ec "apt install docker-compose -y").2
  else s

/-- `DockerInstaller.install_centos` (lines 125–144).  Note: the index
refresh (`yum check-update`) and the prerequisite install are inside the
`if self.install_docker:` block. -/
def install_centos (ec : String → Int) (f : Flags) (s : St) : St :=
  let s :=
    if f.install_docker then
      let (_, s) := s.runc ec "yum check-update"
      let (_, s) := s.runc ec "dnf install git curl wget -y"
      let (_, s) := s.runc ec "curl -fsSL https://get.docker.com/ | sh"
      let (_, s) := s.runc ec "systemctl start docker"
      (s.runc ec "systemctl enable docker").2
    else s
  if f.install_docker_compose then
    let (_, s) := s.runc ec "curl -L \"https://github.com/docker/compose/releases/download/1.23.2/docker-compose-$(uname -s)-$(uname -m)\" -o /usr/local/bin/docker-compose"
    (s.runc ec "chmod +x /usr/local/bin/docker-compose").2
  else s

/-- `DockerInstaller.install_arch` (lines 146–162).  `updateAns` is the
answer to the interactive system-update opt-in. -/
def install_arch (ec : String → Int) (updateAns : Bool) (f : Flags) (s : St) : St :=
  let s :=
    if updateAns then
      let (_, s) := s.runc ec "pacman -Syu"
      s.spin 3
    else s
  let (_, s) := s.runc ec "pacman -Sy git curl wget"
  let s :=
    if f.install_docker then (s.runc ec "curl -fsSL https://get.docker.com | sh").2
    else s
  if f.install_docker_compose then (s.runc ec "pacman -Sy docker-compose").2
  else s

/-- `DockerInstaller.install_nginx_proxy_manager` (lines 164–179): same
shape as the Ubuntu script's variant, ending in
`os.chdir(os.path.expanduser("~"))`. -/
def install_nginx_proxy_manager (ec : String → Int) (home : String) (s : St) : St :=
  let s := s.mkd "docker/nginx-proxy-manager"
  let s := s.cdRel "docker/nginx-proxy-manager"
  let (_, s) := s.runc ec npmFetchCmd
  let (_, s) := s.runc ec composeUpCmd
  s.cd home

/-- The method `DockerInstaller.install_portainer` (lines 181–194).  In
the source this method is unreachable: `__init__` and
`prompt_installations` assign a `bool` to `self.install_portainer`,
shadowing the method, so `self.install_portainer()` in `main` raises
`TypeError` instead of running this body.  Modelled for its own
behaviour (no directory change). -/
def install_portainer (ec : String → Int) (choice : Option Nat) (s : St) : St :=
  if choice = some 1 then
    let (_, s) := s.runc ec "docker volume create portainer_data"
    (s.runc ec portainerCeRun).2
  else if choice = some 2 then
    let (_, s) := s.runc ec "docker volume create portainer_data"
    (s.runc ec portainerAgentRun).2
  else s

/-- The method `DockerInstaller.install_navidrome` (lines 196–208); like
`install_portainer` it is shadowed by a `bool` attribute and is
unreachable from `main`. -/
def install_navidrome (ec : String → Int) (home : String) (s : St) : St :=
  let s := s.mkd "docker/navidrome"
  let s := s.cdRel "docker/navidrome"
  let (_, s) := s.runc ec navidromeFetchCmd
  let (_, s) := s.runc ec composeUpCmd
  s.cd home

/-- How a run of the multi-distro script ends: a `sys.exit` / normal
completion with a code, or an uncaught `TypeError` from calling a `bool`
attribute that shadows a method (the argument names the attribute whose
call raised). -/
inductive Outcome
  | exited (code : Nat)
  | typeError (attr : String)
deriving DecidableEq, Repr

/-- Outcome of a run of the multi-distro script. -/
structure MRun where
  st : St
  out : Outcome
deriving DecidableEq, Repr

/-- The bootstrap dispatch block of `main` (lines 240–246): `1` →
CentOS, `2`/`3`/`4` → Debian/Ubuntu, `5` → Arch. -/
def bootstrap_dispatch (ec : String → Int) (updateAns : Bool) (os_choice : Nat)
    (f : Flags) (s : St) : St :=
  if os_choice = 1 then install_centos ec f s
  else if os_choice = 2 ∨ os_choice = 3 ∨ os_choice = 4 then
    install_debian_ubuntu ec f s
  else if os_choice = 5 then install_arch ec updateAns f s
  else s

/-- The companion block of `main` (lines 248–254):
`install_nginx_proxy_manager` runs normally; the guarded calls
`self.install_portainer()` and `self.install_navidrome()` raise
`TypeError` (`'bool' object is not callable`) because the prompt
assigned a `bool` to those attribute names, shadowing the methods — the
run then terminates by crash. -/
def companion_phase (ec : String → Int) (f : Flags) (home : String) (s : St) : MRun :=
  let s := if f.install_npm then install_nginx_proxy_manager ec home s else s
  if f.install_portainer ∧ (f.portainer_choice = some 1 ∨ f.portainer_choice = some 2) then
    ⟨s, Outcome.typeError "install_portainer"⟩
  else if f.install_navidrome then ⟨s, Outcome.typeError "install_navidrome"⟩
  else ⟨s, Outcome.exited 0⟩

/-- `DockerInstaller.main` (lines 210–254).  `get_system_info` runs four
`lsb_release` queries via `subprocess.getoutput` (captured, not logged).
`os_choice` is the 1–6 menu input accepted by the validation loop.
Choice 6 exits 0; otherwise prompt, bootstrap dispatch, companion
phase. -/
def main (ec : String → Int) (dockerActive composeInstalled : Bool) (a : Answers)
    (updateAns : Bool) (os_choice : Nat) (home : String) (s : St) : MRun :=
  let s := { s with trace := s.trace ++
    [Ev.getoutput "lsb_release -i", Ev.getoutput "lsb_release -d",
     Ev.getoutput "lsb_release -r", Ev.getoutput "lsb_release -c"] }
  if os_choice = 6 then ⟨s, Outcome.exited 0⟩
  else
    let (f, s) := prompt_installations dockerActive composeInstalled a s
    let s := bootstrap_dispatch ec updateAns os_choice f s
    companion_phase ec f home s

/-- The `__main__` guard (lines 256–262): non-root exits `1` before
anything else. -/
def script_entry (euid : Nat) (ec : String → Int) (dockerActive composeInstalled : Bool)
    (a : Answers) (updateAns : Bool) (os_choice : Nat) (home : String) (s : St) : MRun :=
  if euid ≠ 0 then ⟨s, Outcome.exited 1⟩
  else main ec dockerActive composeInstalled a updateAns os_choice home s

end DockerInstaller

/-! ### Helper lemmas -/

/-- Appending preserves an all-events predicate. -/
theorem all_append_of (P : Ev → Bool) (t₁ t₂ : List Ev) (h₁ : t₁.all P = true)
    (h₂ : t₂.all P = true) : (t₁ ++ t₂).all P = true := by
  simp [List.all_append, h₁, h₂]

/-- An event failing the predicate is not in a trace satisfying it. -/
theorem not_mem_of_all (P : Ev → Bool) (t : List Ev) (h : t.all P = true) (e : Ev)
    (he : P e = false) : e ∉ t := by
  intro hm
  have := List.all_eq_true.mp h e hm
  rw [he] at this
  exact Bool.false_ne_true this

/-- The readiness loop only appends probe and sleep events. -/
theorem wait_loop_all (P : Ev → Bool) (hp : P Ev.probe = true) (hs1 : P (Ev.sleepSec 1) = true)
    (active : Nat → Bool) (fuel k r : Nat) (s : St) (h : s.trace.all P = true) :
    (UbuntuDockerInstaller.wait_loop active fuel k r s).1.trace.all P = true := by
  induction fuel generalizing k r s with
  | zero => exact h
  | succ fuel ih =>
    simp only [UbuntuDockerInstaller.wait_loop]
    split
    · exact ih _ _ _ (all_append_of P _ _ h (by simp [hp, hs1]))
    · exact all_append_of P _ _ h (by simp [hp])

/-- The full readiness wait only appends probe and sleep events. -/
theorem readiness_wait_all (P : Ev → Bool) (hp : P Ev.probe = true)
    (hs1 : P (Ev.sleepSec 1) = true) (active : Nat → Bool) (k : Nat) (s : St)
    (h : s.trace.all P = true) :
    (UbuntuDockerInstaller.readiness_wait active k s).1.trace.all P = true := by
  simp only [UbuntuDockerInstaller.readiness_wait]
  exact all_append_of P _ _ (wait_loop_all P hp hs1 active 31 k 0 s h) (by simp [hp])

/-- The numeric results of the readiness loop do not depend on the state. -/
theorem wait_loop_res (active : Nat → Bool) (fuel k r : Nat) (s s' : St) :
    (UbuntuDockerInstaller.wait_loop active fuel k r s).2 =
      (UbuntuDockerInstaller.wait_loop active fuel k r s').2 := by
  induction fuel generalizing k r s s' with
  | zero => rfl
  | succ fuel ih =>
    simp only [UbuntuDockerInstaller.wait_loop]
    split
    · exact ih _ _ _ _
    · rfl

/-- The boolean verdict of the readiness wait does not depend on the state. -/
theorem readiness_wait_res (active : Nat → Bool) (k : Nat) (s s' : St) :
    (UbuntuDockerInstaller.readiness_wait active k s).2 =
      (UbuntuDockerInstaller.readiness_wait active k s').2 := by
  simp only [UbuntuDockerInstaller.readiness_wait]
  rw [wait_loop_res active 31 k 0 s s']

/-- `true` on every event except the two runtime-install (`get.docker`)
commands. -/
def runtimeFree : Ev → Bool
  | Ev.cmd c =>
    !(c == "curl -fsSL https://get.docker.com | sh" ||
      c == "curl -fsSL https://get.docker.com/ | sh")
  | _ => true

/-- `true` on every event except the three Portainer commands. -/
def portainerFree : Ev → Bool
  | Ev.cmd c =>
    !(c == "docker volume create portainer_data" || c == portainerCeRun ||
      c == portainerAgentRun)
  | _ => true

/-- A trace free of Portainer commands. -/
def noPortainer (t : List Ev) : Bool := t.all portainerFree

/-- `install_docker_packages` with the runtime already active issues no
runtime-install command. -/
theorem install_docker_packages_runtimeFree (ec : String → Int) (active : Nat → Bool)
    (cI : Bool) (k : Nat) (s : St) (h : active k = true)
    (hs : s.trace.all runtimeFree = true) :
    (UbuntuDockerInstaller.install_docker_packages ec active cI k s).1.trace.all
      runtimeFree = true := by
  cases cI <;>
    simp only [UbuntuDockerInstaller.install_docker_packages, St.runc, run_command,
      St.spin, St.probe, St.composeQ, h, not_true, if_neg, ite_false, ite_true,
      Bool.not_eq_true, List.append_assoc, List.singleton_append, List.cons_append,
      Bool.false_eq_true, List.nil_append] <;>
    exact all_append_of _ _ _ hs (by decide)

/-- The Ubuntu proxy-manager companion only appends mkdir/chdir and its
two commands. -/
theorem ubuntu_npm_all (P : Ev → Bool) (ec : String → Int) (home : String) (s : St)
    (h : s.trace.all P = true)
    (h1 : P (Ev.mkdirs "docker/nginx-proxy-manager") = true) (h2 : ∀ p, P (Ev.chdir p) = true)
    (h3 : P (Ev.cmd npmFetchCmd) = true) (h4 : P (Ev.cmd composeUpCmd) = true) :
    (UbuntuDockerInstaller.install_nginx_proxy_manager ec home s).trace.all P = true := by
  simp only [UbuntuDockerInstaller.install_nginx_proxy_manager, St.mkd, St.cdRel, St.cd,
    St.runc, run_command, List.append_assoc, List.singleton_append, List.cons_append]
  exact all_append_of _ _ _ h (by simp [h1, h2, h3, h4])

/-- The Ubuntu Portainer companion only appends its two commands. -/
theorem ubuntu_portainer_all (P : Ev → Bool) (ec : String → Int) (s : St)
    (h : s.trace.all P = true)
    (h1 : P (Ev.cmd "docker volume create portainer_data") = true)
    (h2 : P (Ev.cmd portainerCeRun) = true) :
    (UbuntuDockerInstaller.install_portainer ec s).trace.all P = true := by
  simp only [UbuntuDockerInstaller.install_portainer, St.runc, run_command,
    List.append_assoc, List.singleton_append, List.cons_append]
  exact all_append_of _ _ _ h (by simp [h1, h2])

/-- The Debian/Ubuntu bootstrap issues no Portainer command. -/
theorem install_debian_ubuntu_noPortainer (ec : String → Int) (f : DockerInstaller.Flags)
    (s : St) (h : noPortainer s.trace = true) :
    noPortainer (DockerInstaller.install_debian_ubuntu ec f s).trace = true := by
  cases hd : f.install_docker <;> cases hc : f.install_docker_compose <;>
    simp only [DockerInstaller.install_debian_ubuntu, St.runc, run_command, St.spin, hd, hc,
      ite_true, ite_false, Bool.false_eq_true, if_neg, reduceIte, List.append_assoc,
      List.singleton_append, List.cons_append, noPortainer] <;>
    exact all_append_of _ _ _ h (by decide)

/-- The CentOS bootstrap issues no Portainer command. -/
theorem install_centos_noPortainer (ec : String → Int) (f : DockerInstaller.Flags)
    (s : St) (h : noPortainer s.trace = true) :
    noPortainer (DockerInstaller.install_centos ec f s).trace = true := by
  cases hd : f.install_docker <;> cases hc : f.install_docker_compose <;>
    simp only [DockerInstaller.install_centos, St.runc, run_command, hd, hc,
      ite_true, ite_false, Bool.false_eq_true, if_neg, reduceIte, List.append_assoc,
      List.singleton_append, List.cons_append, noPortainer] <;>
    first
      | exact h
      | exact all_append_of _ _ _ h (by decide)

/-- The Arch bootstrap issues no Portainer command. -/
theorem install_arch_noPortainer (ec : String → Int) (u : Bool) (f : DockerInstaller.Flags)
    (s : St) (h : noPortainer s.trace = true) :
    noPortainer (DockerInstaller.install_arch ec u f s).trace = true := by
  cases hu : u <;> cases hd : f.install_docker <;> cases hc : f.install_docker_compose <;>
    simp only [DockerInstaller.install_arch, St.runc, run_command, St.spin, hd, hc,
      ite_true, ite_false, Bool.false_eq_true, if_neg, reduceIte, List.append_assoc,
      List.singleton_append, List.cons_append, noPortainer] <;>
    exact all_append_of _ _ _ h (by decide)

/-- The multi-distro proxy-manager companion issues no Portainer command. -/
theorem multi_npm_noPortainer (ec : String → Int) (home : String) (s : St)
    (h : noPortainer s.trace = true) :
    noPortainer (DockerInstaller.install_nginx_proxy_manager ec home s).trace = true := by
  simp only [DockerInstaller.install_nginx_proxy_manager, St.mkd, St.cdRel, St.cd,
    St.runc, run_command, List.append_assoc, List.singleton_append, List.cons_append,
    noPortainer]
  refine all_append_of _ _ _ h ?_
  simp [portainerFree]
  decide

/-- The bootstrap dispatch issues no Portainer command for any menu choice. -/
theorem bootstrap_dispatch_noPortainer (ec : String → Int) (u : Bool) (oc : Nat)
    (f : DockerInstaller.Flags) (s : St) (h : noPortainer s.trace = true) :
    noPortainer (DockerInstaller.bootstrap_dispatch ec u oc f s).trace = true := by
  simp only [DockerInstaller.bootstrap_dispatch]
  split
  · exact install_centos_noPortainer ec f s h
  · split
    · exact install_debian_ubuntu_noPortainer ec f s h
    · split
      · exact install_arch_noPortainer ec u f s h
      · exact h

/-- The companion block issues no Portainer command: the Portainer
branch crashes before its body could run. -/
theorem companion_phase_noPortainer (ec : String → Int) (f : DockerInstaller.Flags)
    (home : String) (s : St) (h : noPortainer s.trace = true) :
    noPortainer (DockerInstaller.companion_phase ec f home s).st.trace = true := by
  have hX : noPortainer
      (if f.install_npm then DockerInstaller.install_nginx_proxy_manager ec home s
       else s).trace = true := by
    split
    · exact multi_npm_noPortainer ec home s h
    · exact h
  simp only [DockerInstaller.companion_phase]
  split
  · exact hX
  · split
    · exact hX
    · exact hX

/-- No run of the multi-distro `main` ever issues a Portainer command: the
`install_portainer` method is shadowed by a `bool` attribute and its
guarded call raises `TypeError` instead of executing the body. -/
theorem multi_main_noPortainer (ec : String → Int) (dA cI : Bool)
    (a : DockerInstaller.Answers) (u : Bool) (oc : Nat) (home : String) (s : St)
    (h : noPortainer s.trace = true) :
    noPortainer (DockerInstaller.main ec dA cI a u oc home s).st.trace = true := by
  have hg : noPortainer (s.trace ++
      [Ev.getoutput "lsb_release -i", Ev.getoutput "lsb_release -d",
       Ev.getoutput "lsb_release -r", Ev.getoutput "lsb_release -c"]) = true :=
    all_append_of _ _ _ h (by decide)
  simp only [DockerInstaller.main, DockerInstaller.prompt_installations, St.probe,
    St.composeQ]
  split
  · exact hg
  · exact companion_phase_noPortainer ec _ home _
      (bootstrap_dispatch_noPortainer ec u oc _ _
        (all_append_of _ _ _ (all_append_of _ _ _ hg (by decide)) (by decide)))

/-- With Portainer menu choice 3 ("Nevermind"), the companion block never
reaches the shadowed Portainer call. -/
theorem companion_phase_choice3 (ec : String → Int) (f : DockerInstaller.Flags)
    (home : String) (s : St) (h : f.portainer_choice = some 3) :
    (DockerInstaller.companion_phase ec f home s).out ≠
      DockerInstaller.Outcome.typeError "install_portainer" := by
  simp only [DockerInstaller.companion_phase, h]
  split
  · next hcond => exact absurd hcond (by simp)
  · split <;> simp
theorem ubuntu_main_runtimeFree (ec : String → Int) (active : Nat → Bool) (cI : Bool)
    (v : String) (home : String) (s : St) (h : active 0 = true)
    (hs : s.trace.all runtimeFree = true) :
    (UbuntuDockerInstaller.main ec active cI (some v) home s).st.trace.all
      runtimeFree = true := by
  rcases hi : UbuntuDockerInstaller.install_docker_packages ec active cI 0 s with ⟨s₁, k₁⟩
  have h1 : s₁.trace.all runtimeFree = true := by
    have hh := install_docker_packages_runtimeFree ec active cI 0 s h hs
    rw [hi] at hh
    exact hh
  rcases hw : UbuntuDockerInstaller.readiness_wait active k₁ s₁ with ⟨s₂, k₂, ok⟩
  have h2 : s₂.trace.all runtimeFree = true := by
    have hh := readiness_wait_all runtimeFree (by decide) (by decide) active k₁ s₁ h1
    rw [hw] at hh
    exact hh
  simp only [UbuntuDockerInstaller.main, hi, hw]
  cases ok
  · simpa using h2
  · simp only [Bool.not_true, ite_false, ite_true, Bool.false_eq_true, not_true,
      if_neg, reduceIte]
    exact ubuntu_portainer_all runtimeFree ec _
      (ubuntu_npm_all runtimeFree ec home s₂ h2 (by decide) (fun p => rfl)
        (by decide) (by decide))
      (by decide) (by decide)

/-! ### Claims -/

/-- C1, counterexample: with an always-false probe the readiness wait
does NOT conclude after exactly 30 probe invocations — each of the 31
evaluations of the loop condition probes once (the probe is the left
operand of `and`, evaluated even when `retries` has reached 30), and the
final `if not is_docker_active()` re-probes, so a 31st probe IS issued. -/
theorem C1_counterexample :
    probeCount
      (UbuntuDockerInstaller.readiness_wait (fun _ => false) 0
        ⟨[], none, "/root"⟩).1.trace ≠ 30 := by
  decide

/-- C1, amended: with `maxAttempts = 30` and an always-false probe the
readiness wait concludes 'not active' after exactly 32 probe invocations
(31 loop-condition probes plus one final confirmation re-probe) and
exactly 30 sleep seconds; with an always-true probe it concludes
'active' after 2 probes (the first loop check plus the confirmation
re-probe) and no sleeping. -/
theorem C1_theorem :
    ((UbuntuDockerInstaller.readiness_wait (fun _ => false) 0
        ⟨[], none, "/root"⟩).2.2 = false ∧
      probeCount (UbuntuDockerInstaller.readiness_wait (fun _ => false) 0
        ⟨[], none, "/root"⟩).1.trace = 32 ∧
      sleepTotal (UbuntuDockerInstaller.readiness_wait (fun _ => false) 0
        ⟨[], none, "/root"⟩).1.trace = 30) ∧
    ((UbuntuDockerInstaller.readiness_wait (fun _ => true) 0
        ⟨[], none, "/root"⟩).2.2 = true ∧
      probeCount (UbuntuDockerInstaller.readiness_wait (fun _ => true) 0
        ⟨[], none, "/root"⟩).1.trace = 2 ∧
      sleepTotal (UbuntuDockerInstaller.readiness_wait (fun _ => true) 0
        ⟨[], none, "/root"⟩).1.trace = 0) := by
  decide

/-- `install_docker_packages` only appends its base events, the
runtime-install block and the compose install. -/
theorem install_docker_packages_all (P : Ev → Bool) (ec : String → Int)
    (active : Nat → Bool) (cI : Bool) (k : Nat) (s : St)
    (h : s.trace.all P = true)
    (h1 : P (Ev.cmd "apt update && apt upgrade -y") = true)
    (h2 : P (Ev.spin 3) = true)
    (h3 : P (Ev.cmd "apt install curl wget git -y") = true)
    (h4 : P Ev.probe = true)
    (h5 : P (Ev.cmd "curl -fsSL https://get.docker.com | sh") = true)
    (h6 : P (Ev.cmd "usermod -aG docker $USER") = true)
    (h7 : P (Ev.cmd "systemctl start docker") = true)
    (h8 : P (Ev.cmd "systemctl enable docker") = true)
    (h9 : P Ev.composeQ = true)
    (h10 : P (Ev.cmd "apt install docker-compose -y") = true) :
    (UbuntuDockerInstaller.install_docker_packages ec active cI k s).1.trace.all P =
      true := by
  cases ha : active k <;> cases cI <;>
    simp only [UbuntuDockerInstaller.install_docker_packages, St.runc, run_command,
      St.spin, St.probe, St.composeQ, ha, Bool.not_eq_true, Bool.false_eq_true,
      not_false_eq_true, not_true, ite_true, ite_false, if_neg, reduceIte,
      List.append_assoc, List.singleton_append, List.cons_append] <;>
    exact all_append_of _ _ _ h
      (by simp [h1, h2, h3, h4, h5, h6, h7, h8, h9, h10])

/-- C2: if every probe of the run returns false, the Ubuntu orchestrator
exits with code 1 after the readiness wait, and its trace contains no
companion-install activity: no companion directory creation, no
directory change, no descriptor fetch, no compose bring-up, no Portainer
command. -/
theorem C2 (ec : String → Int) (active : Nat → Bool) (composeInstalled : Bool)
    (v home cwd : String) (h : ∀ i, active i = false) :
    (UbuntuDockerInstaller.main ec active composeInstalled (some v) home
      ⟨[], none, cwd⟩).exit = 1 ∧
    (UbuntuDockerInstaller.main ec active composeInstalled (some v) home
      ⟨[], none, cwd⟩).st.trace.all (fun e => !(isCompanionEv e)) = true := by
  rcases hi : UbuntuDockerInstaller.install_docker_packages ec active composeInstalled 0
      ⟨[], none, cwd⟩ with ⟨s₁, k₁⟩
  have h1 : s₁.trace.all (fun e => !(isCompanionEv e)) = true := by
    have hh := install_docker_packages_all (fun e => !(isCompanionEv e)) ec active
      composeInstalled 0 ⟨[], none, cwd⟩ rfl (by decide) (by decide) (by decide)
      (by decide) (by decide) (by decide) (by decide) (by decide) (by decide) (by decide)
    rw [hi] at hh
    exact hh
  rcases hw : UbuntuDockerInstaller.readiness_wait active k₁ s₁ with ⟨s₂, k₂, ok⟩
  have h2 : s₂.trace.all (fun e => !(isCompanionEv e)) = true := by
    have hh := readiness_wait_all (fun e => !(isCompanionEv e)) (by decide) (by decide)
      active k₁ s₁ h1
    rw [hw] at hh
    exact hh
  have hok : ok = false := by
    have hh : (UbuntuDockerInstaller.readiness_wait active k₁ s₁).2.2 =
        active (UbuntuDockerInstaller.wait_loop active 31 k₁ 0 s₁).2.1 := rfl
    rw [hw] at hh
    rw [h _] at hh
    exact hh
  subst hok
  simp only [UbuntuDockerInstaller.main, hi, hw]
  exact ⟨rfl, h2⟩

/-- Witness for C2 at a concrete instance. -/
theorem C2_witness :
    (∀ i : Nat, (fun _ : Nat => false) i = false) ∧
    ((UbuntuDockerInstaller.main (fun _ => 0) (fun _ => false) true (some "22.04") "/root"
      ⟨[], none, "/root"⟩).exit = 1 ∧
    (UbuntuDockerInstaller.main (fun _ => 0) (fun _ => false) true (some "22.04") "/root"
      ⟨[], none, "/root"⟩).st.trace.all (fun e => !(isCompanionEv e)) = true) :=
  ⟨fun _ => rfl,
    C2 (fun _ => 0) (fun _ => false) true "22.04" "/root" "/root" (fun _ => rfl)⟩

/-- C3, counterexample: for the CentOS family the prerequisite-install
step is NOT issued unconditionally — with the runtime not requested and
compose requested, `install_centos` issues no prerequisite install (the
index refresh and prerequisite steps sit inside `if self.install_docker:`). -/
theorem C3_counterexample :
    "dnf install git curl wget -y" ∉
      cmdsOf (DockerInstaller.install_centos (fun _ => 0)
        ⟨false, true, false, false, false, none⟩ ⟨[], none, "/root"⟩).trace := by
  decide


/-- The four ordered step markers of the Debian/Ubuntu bootstrap:
index refresh, prerequisites, runtime, compose. -/
def debianSteps : List String :=
  ["apt update && apt upgrade -y", "apt install curl wget git -y",
   "curl -fsSL https://get.docker.com | sh", "apt install docker-compose -y"]

/-- The four ordered step markers of the CentOS bootstrap. -/
def centosSteps : List String :=
  ["yum check-update", "dnf install git curl wget -y",
   "curl -fsSL https://get.docker.com/ | sh",
   "curl -L \"https://github.com/docker/compose/releases/download/1.23.2/docker-compose-$(uname -s)-$(uname -m)\" -o /usr/local/bin/docker-compose"]

/-- The four ordered step markers of the Arch bootstrap. -/
def archSteps : List String :=
  ["pacman -Syu", "pacman -Sy git curl wget",
   "curl -fsSL https://get.docker.com | sh", "pacman -Sy docker-compose"]

/-- C3, amended: for every family the steps that are issued appear in
the order index-refresh, prerequisites, runtime, compose, with the
runtime and compose steps issued exactly when requested; but the
index-refresh and prerequisite steps are unconditional only for
Debian/Ubuntu — for CentOS both are issued exactly when the runtime is
requested, and for Arch the index refresh is issued exactly on the
interactive opt-in (the prerequisite step is unconditional there). -/
theorem C3_theorem (ec : String → Int) (f : DockerInstaller.Flags) (u : Bool) :
    (let L := cmdsOf (DockerInstaller.install_debian_ubuntu ec f ⟨[], none, "/root"⟩).trace
     isSubseq (debianSteps.filter L.contains) L = true ∧
       L.contains "apt update && apt upgrade -y" = true ∧
       L.contains "apt install curl wget git -y" = true ∧
       L.contains "curl -fsSL https://get.docker.com | sh" = f.install_docker ∧
       L.contains "apt install docker-compose -y" = f.install_docker_compose) ∧
    (let L := cmdsOf (DockerInstaller.install_centos ec f ⟨[], none, "/root"⟩).trace
     isSubseq (centosSteps.filter L.contains) L = true ∧
       L.contains "yum check-update" = f.install_docker ∧
       L.contains "dnf install git curl wget -y" = f.install_docker ∧
       L.contains "curl -fsSL https://get.docker.com/ | sh" = f.install_docker ∧
       L.contains "curl -L \"https://github.com/docker/compose/releases/download/1.23.2/docker-compose-$(uname -s)-$(uname -m)\" -o /usr/local/bin/docker-compose" =
         f.install_docker_compose) ∧
    (let L := cmdsOf (DockerInstaller.install_arch ec u f ⟨[], none, "/root"⟩).trace
     isSubseq (archSteps.filter L.contains) L = true ∧
       L.contains "pacman -Syu" = u ∧
       L.contains "pacman -Sy git curl wget" = true ∧
       L.contains "curl -fsSL https://get.docker.com | sh" = f.install_docker ∧
       L.contains "pacman -Sy docker-compose" = f.install_docker_compose) := by
  obtain ⟨d, c, n, v, p, pc⟩ := f
  cases d <;> cases c <;> cases u <;>
    exact ⟨⟨rfl, rfl, rfl, rfl, rfl⟩, ⟨rfl, rfl, rfl, rfl, rfl⟩,
      ⟨rfl, rfl, rfl, rfl, rfl⟩⟩

/-- C4: if the runtime-active probe returns true at probe time, the
runtime-install command is never issued — the multi-distro prompt leaves
`install_docker` at `False` so every bootstrap variant skips the runtime
step, and the Ubuntu flow's guard skips its runtime block, so the whole
Ubuntu run contains no runtime-install command. -/
theorem C4 (ec : String → Int) (composeInstalled u : Bool) (a : DockerInstaller.Answers)
    (active : Nat → Bool) (v home cwd : String) (h : active 0 = true) :
    (DockerInstaller.prompt_installations true composeInstalled a
      ⟨[], none, cwd⟩).1.install_docker = false ∧
    Ev.cmd "curl -fsSL https://get.docker.com | sh" ∉
      (DockerInstaller.install_debian_ubuntu ec
        (DockerInstaller.prompt_installations true composeInstalled a ⟨[], none, cwd⟩).1
        ⟨[], none, cwd⟩).trace ∧
    Ev.cmd "curl -fsSL https://get.docker.com/ | sh" ∉
      (DockerInstaller.install_centos ec
        (DockerInstaller.prompt_installations true composeInstalled a ⟨[], none, cwd⟩).1
        ⟨[], none, cwd⟩).trace ∧
    Ev.cmd "curl -fsSL https://get.docker.com | sh" ∉
      (DockerInstaller.install_arch ec u
        (DockerInstaller.prompt_installations true composeInstalled a ⟨[], none, cwd⟩).1
        ⟨[], none, cwd⟩).trace ∧
    Ev.cmd "curl -fsSL https://get.docker.com | sh" ∉
      (UbuntuDockerInstaller.main ec active composeInstalled (some v) home
        ⟨[], none, cwd⟩).st.trace := by
  obtain ⟨ad, ac, an, av, ap, apc⟩ := a
  refine ⟨rfl, ?_, ?_, ?_, ?_⟩
  · cases composeInstalled <;> cases ac <;> exact of_decide_eq_true rfl
  · cases composeInstalled <;> cases ac <;> exact of_decide_eq_true rfl
  · cases composeInstalled <;> cases ac <;> cases u <;> exact of_decide_eq_true rfl
  · exact not_mem_of_all runtimeFree _
      (ubuntu_main_runtimeFree ec active composeInstalled v home ⟨[], none, cwd⟩ h rfl)
      _ rfl

/-- Witness for C4 at a concrete instance. -/
theorem C4_witness :
    ((fun _ : Nat => true) 0 = true) ∧
    ((DockerInstaller.prompt_installations true false ⟨false, false, false, false, false, 0⟩
      ⟨[], none, "/root"⟩).1.install_docker = false ∧
    Ev.cmd "curl -fsSL https://get.docker.com | sh" ∉
      (DockerInstaller.install_debian_ubuntu (fun _ => 0)
        (DockerInstaller.prompt_installations true false
          ⟨false, false, false, false, false, 0⟩ ⟨[], none, "/root"⟩).1
        ⟨[], none, "/root"⟩).trace ∧
    Ev.cmd "curl -fsSL https://get.docker.com/ | sh" ∉
      (DockerInstaller.install_centos (fun _ => 0)
        (DockerInstaller.prompt_installations true false
          ⟨false, false, false, false, false, 0⟩ ⟨[], none, "/root"⟩).1
        ⟨[], none, "/root"⟩).trace ∧
    Ev.cmd "curl -fsSL https://get.docker.com | sh" ∉
      (DockerInstaller.install_arch (fun _ => 0) false
        (DockerInstaller.prompt_installations true false
          ⟨false, false, false, false, false, 0⟩ ⟨[], none, "/root"⟩).1
        ⟨[], none, "/root"⟩).trace ∧
    Ev.cmd "curl -fsSL https://get.docker.com | sh" ∉
      (UbuntuDockerInstaller.main (fun _ => 0) (fun _ => true) false (some "22.04") "/root"
        ⟨[], none, "/root"⟩).st.trace) :=
  ⟨rfl, C4 (fun _ => 0) false false ⟨false, false, false, false, false, 0⟩
    (fun _ => true) "22.04" "/root" "/root" rfl⟩

/-- C5, counterexample: a proxy-manager companion install entered from
`/srv` (with home `/root`) does not return to `/srv`, even though the
compose bring-up path completes (here every command fails with exit 1,
exercising the failing path as well). -/
theorem C5_counterexample :
    (DockerInstaller.install_nginx_proxy_manager (fun _ => 1) "/root"
      ⟨[], none, "/srv"⟩).cwd ≠ "/srv" := by
  decide

/-- C5, amended: the directory-changing companion installs (proxy
manager, Navidrome) always leave the working directory at the invoking
user's home directory — on both the successful and the failing compose
bring-up path (the exit-code oracle is arbitrary) — so the pre-call
directory is restored exactly when it was the home directory; the
Portainer install never changes the working directory. -/
theorem C5_theorem (ec : String → Int) (home : String) (s : St) :
    (DockerInstaller.install_nginx_proxy_manager ec home s).cwd = home ∧
    (UbuntuDockerInstaller.install_nginx_proxy_manager ec home s).cwd = home ∧
    (DockerInstaller.install_navidrome ec home s).cwd = home ∧
    (UbuntuDockerInstaller.install_portainer ec s).cwd = s.cwd ∧
    ∀ choice : Option Nat, (DockerInstaller.install_portainer ec choice s).cwd = s.cwd := by
  refine ⟨rfl, rfl, rfl, rfl, fun choice => ?_⟩
  simp only [DockerInstaller.install_portainer, St.runc, run_command]
  split
  · rfl
  · split <;> rfl

/-- C6: on a non-Ubuntu host (`check_ubuntu_version()` returns `None`)
the Ubuntu orchestrator exits with code 1 immediately: the trace is
empty (no command is executed) and the log file is never created. -/
theorem C6 (ec : String → Int) (active : Nat → Bool) (composeInstalled : Bool)
    (home cwd : String) :
    UbuntuDockerInstaller.main ec active composeInstalled none home ⟨[], none, cwd⟩ =
      ⟨⟨[], none, cwd⟩, 1⟩ := rfl

/-- C7: (1) at a concrete run (Debian/Ubuntu choice, Portainer selected
with menu choice 1, all commands succeeding) the multi-distro script
terminates with an uncaught `TypeError` — a termination cause outside
the three named fatal conditions; (2)–(3) command exit codes never
influence either script's behaviour (the entire run result is
exit-code-oracle-independent, so no command failure halts the sequence);
(4) the Ubuntu script's exit code is 1 exactly on privilege failure,
unsupported distro, or readiness-wait failure. -/
theorem C7_theorem :
    (DockerInstaller.main (fun _ => 0) false false ⟨false, false, false, true, true, 1⟩
        false 4 "/root" ⟨[], none, "/root"⟩).out =
      DockerInstaller.Outcome.typeError "install_portainer" ∧
    (∀ (ec₁ ec₂ : String → Int) (dA cI : Bool) (a : DockerInstaller.Answers) (u : Bool)
        (oc : Nat) (home : String) (s : St),
      DockerInstaller.main ec₁ dA cI a u oc home s =
        DockerInstaller.main ec₂ dA cI a u oc home s) ∧
    (∀ (ec₁ ec₂ : String → Int) (active : Nat → Bool) (cI : Bool) (v : Option String)
        (home : String) (s : St),
      UbuntuDockerInstaller.main ec₁ active cI v home s =
        UbuntuDockerInstaller.main ec₂ active cI v home s) ∧
    (∀ (euid : Nat) (ec : String → Int) (active : Nat → Bool) (cI : Bool)
        (v : Option String) (home cwd : String),
      (UbuntuDockerInstaller.script_entry euid ec active cI v home
          ⟨[], none, cwd⟩).exit = 1 ↔
        (euid ≠ 0 ∨ v = none ∨
          (UbuntuDockerInstaller.readiness_wait active 1 ⟨[], none, cwd⟩).2.2 = false)) := by
  refine ⟨rfl, fun ec₁ ec₂ dA cI a u oc home s => rfl,
    fun ec₁ ec₂ active cI v home s => rfl, ?_⟩
  intro euid ec active cI v home cwd
  by_cases he : euid ≠ 0
  · simp [UbuntuDockerInstaller.script_entry, he]
  · simp only [UbuntuDockerInstaller.script_entry, if_neg he]
    cases v with
    | none => simp [UbuntuDockerInstaller.main, he]
    | some v =>
      rcases hi : UbuntuDockerInstaller.install_docker_packages ec active cI 0
          ⟨[], none, cwd⟩ with ⟨s₁, k₁⟩
      have hk : k₁ = 1 := by
        have hh : (UbuntuDockerInstaller.install_docker_packages ec active cI 0
            ⟨[], none, cwd⟩).2 = 1 := rfl
        rw [hi] at hh
        exact hh
      subst hk
      rcases hw : UbuntuDockerInstaller.readiness_wait active 1 s₁ with ⟨s₂, k₂, ok⟩
      have hres : ((k₂, ok) : Nat × Bool) =
          (UbuntuDockerInstaller.readiness_wait active 1 ⟨[], none, cwd⟩).2 := by
        have hh := readiness_wait_res active 1 s₁ ⟨[], none, cwd⟩
        rw [hw] at hh
        exact hh
      have hok : (UbuntuDockerInstaller.readiness_wait active 1 ⟨[], none, cwd⟩).2.2 =
          ok := by
        rw [← hres]
      simp only [UbuntuDockerInstaller.main, hi, hw]
      cases ok <;> simp [he, hok]

/-- C8: `run_command` appends (the tagged output of) the command to the
existing log content, never truncating it, and always returns the
command's exit code to the caller; folding any sequence of calls over the
log only extends the prior content. -/
theorem C8 (ec : String → Int) (c : String) (log : List String) (cs : List String) :
    (run_command ec c (some log)).2 = some (log ++ [c]) ∧
    (run_command ec c (some log)).1.returncode = ec c ∧
    ∃ t, execAll ec cs (some log) = some (log ++ t) := by
  refine ⟨rfl, rfl, ?_⟩
  induction cs generalizing log with
  | nil => exact ⟨[], by simp [execAll]⟩
  | cons c2 cs ih =>
    obtain ⟨t, ht⟩ := ih (log ++ [c2])
    refine ⟨c2 :: t, ?_⟩
    show execAll ec cs (some (log ++ [c2])) = some (log ++ c2 :: t)
    rw [ht]
    simp

/-- C9: the second component of `run_command`'s result — the captured
standard output — is always `None`, because stdout is redirected into
the log file; callers can only observe the exit code. -/
theorem C9 (ec : String → Int) (c : String) (log : Option (List String)) :
    (run_command ec c log).1.stdout = none := rfl

set_option maxRecDepth 8000 in
/-- C10: if Portainer is selected at the prompt but menu choice 3
("Nevermind") is taken, the selected flag remains true, yet no
Portainer-related command is ever executed and the shadowed
`install_portainer` call site is never reached (the run does not raise
from it). -/
theorem C10 (ec : String → Int) (dA cI : Bool) (a : DockerInstaller.Answers) (u : Bool)
    (oc : Nat) (home cwd : String) (hp : a.portainer = true) (hc : a.portainerChoice = 3) :
    (DockerInstaller.prompt_installations dA cI a ⟨[], none, cwd⟩).1.install_portainer =
      true ∧
    (DockerInstaller.main ec dA cI a u oc home ⟨[], none, cwd⟩).out ≠
      DockerInstaller.Outcome.typeError "install_portainer" ∧
    Ev.cmd "docker volume create portainer_data" ∉
      (DockerInstaller.main ec dA cI a u oc home ⟨[], none, cwd⟩).st.trace ∧
    Ev.cmd portainerCeRun ∉
      (DockerInstaller.main ec dA cI a u oc home ⟨[], none, cwd⟩).st.trace ∧
    Ev.cmd portainerAgentRun ∉
      (DockerInstaller.main ec dA cI a u oc home ⟨[], none, cwd⟩).st.trace := by
  have hall := multi_main_noPortainer ec dA cI a u oc home ⟨[], none, cwd⟩ rfl
  refine ⟨hp, ?_, not_mem_of_all portainerFree _ hall _ (by decide),
    not_mem_of_all portainerFree _ hall _ (by decide),
    not_mem_of_all portainerFree _ hall _ (by decide)⟩
  by_cases h6 : oc = 6
  · simp [DockerInstaller.main, h6]
  · simp only [DockerInstaller.main, h6, if_neg, ite_false, reduceIte,
      Bool.false_eq_true, not_false_eq_true]
    exact companion_phase_choice3 ec _ home _
      (by simp [DockerInstaller.prompt_installations, hp, hc])

/-- Witness for C10 at a concrete instance. -/
theorem C10_witness :
    ((⟨false, false, false, false, true, 3⟩ : DockerInstaller.Answers).portainer = true) ∧
    ((⟨false, false, false, false, true, 3⟩ : DockerInstaller.Answers).portainerChoice = 3) ∧
    ((DockerInstaller.prompt_installations false false
      ⟨false, false, false, false, true, 3⟩ ⟨[], none, "/root"⟩).1.install_portainer =
      true ∧
    (DockerInstaller.main (fun _ => 0) false false ⟨false, false, false, false, true, 3⟩
      false 4 "/root" ⟨[], none, "/root"⟩).out ≠
      DockerInstaller.Outcome.typeError "install_portainer" ∧
    Ev.cmd "docker volume create portainer_data" ∉
      (DockerInstaller.main (fun _ => 0) false false ⟨false, false, false, false, true, 3⟩
        false 4 "/root" ⟨[], none, "/root"⟩).st.trace ∧
    Ev.cmd portainerCeRun ∉
      (DockerInstaller.main (fun _ => 0) false false ⟨false, false, false, false, true, 3⟩
        false 4 "/root" ⟨[], none, "/root"⟩).st.trace ∧
    Ev.cmd portainerAgentRun ∉
      (DockerInstaller.main (fun _ => 0) false false ⟨false, false, false, false, true, 3⟩
        false 4 "/root" ⟨[], none, "/root"⟩).st.trace) :=
  ⟨rfl, rfl, C10 (fun _ => 0) false false ⟨false, false, false, false, true, 3⟩ false 4
    "/root" "/root" rfl rfl⟩
